import Mathlib

/-!
Verification of the detection-to-attendance pipeline of med-pulse-bot.

The Go source (`internal/services` attendance service, `internal/models`,
`internal/repository`) is shallowly embedded: `time.Time` values in the
server's local time zone become an integer count of seconds on the local
timeline, the PocketBase repositories and the Telegram notifier become an
explicit record of collaborator functions, and the side effects of one
`ProcessDetection` call (created detection records, created attendance
rows, dispatched notifications) are collected in an explicit `Effects`
value returned alongside the Go function's error result and the
(possibly mutated) request struct.
-/

namespace MedPulse

/-- Model of Go `time.Time` in a fixed location: seconds on the local
timeline (midnight boundaries every 86400 seconds). -/
structure GoTime where
  sec : Int
deriving Repr, DecidableEq

/-- The instant of midnight starting the calendar day `t` falls on
(`time.Date(t.Year(), t.Month(), t.Day(), 0, 0, 0, 0, t.Location())`). -/
def GoTime.dayStart (t : GoTime) : Int :=
  86400 * Int.fdiv t.sec 86400

/-- `time.Date(t.Year(), t.Month(), t.Day(), h, m, s, 0, t.Location())`:
the wall-clock `h:m:s` on the calendar day of `t`. -/
def timeDateOn (t : GoTime) (h m s : Nat) : GoTime :=
  ⟨t.dayStart + ((h : Int) * 3600 + (m : Int) * 60 + (s : Int))⟩

/-- Go `a.Before(b)`. -/
def GoTime.before (a b : GoTime) : Bool :=
  a.sec < b.sec

/-- Go `t.Add(d)` for a duration of `d` seconds. -/
def GoTime.addSec (t : GoTime) (d : Int) : GoTime :=
  ⟨t.sec + d⟩

/-- Go `a.Sub(b)` as a duration in seconds. -/
def GoTime.subSec (a b : GoTime) : Int :=
  a.sec - b.sec

/-- Value of a decimal digit character. -/
def digitVal (c : Char) : Option Nat :=
  if c.isDigit then some (c.toNat - 48) else none

/-- A fixed two-digit field (Go layout elements `04`, `05`). -/
def parseTwoDigits : List Char → Option (Nat × List Char)
  | c1 :: c2 :: rest => do
    let a ← digitVal c1
    let b ← digitVal c2
    pure (10 * a + b, rest)
  | _ => none

/-- The hour field of Go layout element `15`: two digits when the first
two characters are digits, otherwise a single digit. -/
def parseHourField : List Char → Option (Nat × List Char)
  | c1 :: c2 :: rest =>
    match digitVal c1, digitVal c2 with
    | some a, some b => some (10 * a + b, rest)
    | some a, none => some (a, c2 :: rest)
    | none, _ => none
  | [c1] => do
    let a ← digitVal c1
    pure (a, ([] : List Char))
  | [] => none

/-- Consume a literal `:`. -/
def parseColon : List Char → Option (List Char)
  | c :: rest => if c = ':' then some rest else none
  | [] => none

/-- Go `time.Parse("15:04:05", v)`, reduced to the fields the service
reads back (`Hour()`, `Minute()`, `Second()`): `none` models a parse
error, `some (h, m, s)` the parsed time of day.  Go rejects trailing
input and out-of-range fields. -/
def parseClock (v : String) : Option (Nat × Nat × Nat) := do
  let (h, r1) ← parseHourField v.toList
  let r2 ← parseColon r1
  let (m, r3) ← parseTwoDigits r2
  let r4 ← parseColon r3
  let (s, r5) ← parseTwoDigits r4
  if r5 = ([] : List Char) ∧ h ≤ 23 ∧ m ≤ 59 ∧ s ≤ 59 then
    pure (h, m, s)
  else
    none

/-- The fixed grace period of `calculateStatus`: 5 minutes, in seconds. -/
def gracePeriod : Int := 5 * 60

/-- `calculateStatus` from `internal/services`: on-time/late
classification of a check-in against the employee's work start time. -/
def calculateStatus (checkInTime : GoTime) (workStartTime : String) : String :=
  match parseClock workStartTime with
  | none => "ontime"
  | some (h, m, s) =>
    let todayWorkStart := timeDateOn checkInTime h m s
    if checkInTime.before (todayWorkStart.addSec gracePeriod) then "ontime"
    else "late"

/-- `calculateLateStatus` from `internal/services`: the human-readable
lateness text; Go `int(d.Minutes())` truncates toward zero, which is
`Int.tdiv` of the duration in seconds by 60. -/
def calculateLateStatus (checkInTime : GoTime) (workStartTime : String) : String :=
  match parseClock workStartTime with
  | none => "เข้าสาย"
  | some (h, m, s) =>
    let todayWorkStart := timeDateOn checkInTime h m s
    let lateMinutes := Int.tdiv (checkInTime.subSec todayWorkStart) 60
    "เข้าสาย " ++ toString lateMinutes ++ " นาที"

/-- `models.DetectionRequest`: one raw sighting, as decoded from the
scanner's JSON payload. -/
structure DetectionRequest where
  scannerMac : String
  macAddress : String
  rssi : Int
  deviceType : String
  isITag03 : Bool
  isTargetDevice : Bool
  deviceName : String
deriving Repr, DecidableEq

/-- `models.Employee`. -/
structure Employee where
  id : String
  telegramChatID : Int
  name : String
  macAddress : String
  workStartTime : String
  isActive : Bool
deriving Repr, DecidableEq

/-- `models.EmployeeDetection`: the audit record of one sighting. -/
structure EmployeeDetection where
  employeeID : String
  macAddress : String
  scannerMac : String
  rssi : Int
  deviceType : String
  isITag03 : Bool
  isTargetDevice : Bool
  deviceName : String
  detectedAt : GoTime
deriving Repr, DecidableEq

/-- `models.Attendance`: one arrival row. -/
structure Attendance where
  employeeID : String
  checkInTime : GoTime
  scannerMac : String
  status : String
  createdDate : GoTime
deriving Repr, DecidableEq

/-- The collaborator calls `AttendanceService` makes, as pure outcome
functions: the repository interfaces of `internal/repository`.  Go
errors are their message strings; `Except.error` is a non-nil `error`
return (for `GetByMacAddress` this includes the repository's
"employee not found" error). -/
structure Collaborators where
  getByMacAddress : String → Except String Employee
  isCheckedInToday : String → Except String Bool
  createDetection : EmployeeDetection → Except String Unit
  createAttendance : Attendance → Except String Unit

/-- The externally visible side effects of one `ProcessDetection` call:
detection records and attendance rows successfully created, and
notifications handed to the bot notifier. -/
structure Effects where
  detections : List EmployeeDetection
  attendances : List Attendance
  personalMessages : List (Int × String)
  adminMessages : List String
deriving Repr, DecidableEq

def emptyEffects : Effects :=
  ⟨[], [], [], []⟩

def Effects.append (a b : Effects) : Effects :=
  ⟨a.detections ++ b.detections, a.attendances ++ b.attendances,
   a.personalMessages ++ b.personalMessages, a.adminMessages ++ b.adminMessages⟩

/-- Zero-padded two-digit field of Go's `15:04:05` time format. -/
def pad2 (n : Int) : String :=
  if n < 10 then "0" ++ toString n else toString n

/-- Go `t.Format("15:04:05")`. -/
def GoTime.formatClock (t : GoTime) : String :=
  let sod := Int.emod t.sec 86400
  pad2 (sod / 3600) ++ ":" ++ pad2 (sod % 3600 / 60) ++ ":" ++ pad2 (sod % 60)

/-- `sendCheckInNotification`: builds the employee-facing message and,
for a late check-in, the admin message, and hands them to the notifier.
Dispatch has no error result (`BotNotifier` returns nothing). -/
def sendCheckInNotification (employee : Employee) (checkInTime : GoTime)
    (scannerMac status : String) : Effects :=
  let statusEmoji := if status = "late" then "⚠️" else "✅"
  let statusText :=
    if status = "late" then calculateLateStatus checkInTime employee.workStartTime
    else "เข้างานตรงเวลา"
  let message :=
    statusEmoji ++ " *สวัสดีตอนเช้า คุณ" ++ employee.name ++ "!*\n\n" ++
      "🕐 เวลาเข้างาน: `" ++ checkInTime.formatClock ++ "`\n" ++
      "📍 สถานที่: `Scanner " ++ scannerMac ++ "`\n" ++
      "⏰ สถานะ: *" ++ statusText ++ "*\n\n" ++
      "ขอให้มีความสุขกับการทำงานวันนี้! 😊"
  let adminMessages :=
    if status = "late" then
      ["⚠️ *พนักงานเข้าสาย*\n👤 ชื่อ: `" ++ employee.name ++ "`\n🕐 เวลา: `" ++
        checkInTime.formatClock ++ "`\n⏰ " ++ statusText]
    else []
  { detections := [], attendances := [],
    personalMessages := [(employee.telegramChatID, message)],
    adminMessages := adminMessages }

/-- The `models.EmployeeDetection` value `saveDetection` builds
(`DetectedAt: time.Now()`). -/
def buildDetection (now : GoTime) (employeeID : String) (req : DetectionRequest) :
    EmployeeDetection :=
  { employeeID := employeeID, macAddress := req.macAddress,
    scannerMac := req.scannerMac, rssi := req.rssi, deviceType := req.deviceType,
    isITag03 := req.isITag03, isTargetDevice := req.isTargetDevice,
    deviceName := req.deviceName, detectedAt := now }

/-- `saveDetection` from `internal/services`: build the detection record
and create it through the detection repository, wrapping a failure as
`failed to create detection: %w`.  The record is among the effects
exactly when the repository call succeeds. -/
def saveDetection (c : Collaborators) (now : GoTime) (employeeID : String)
    (req : DetectionRequest) : Except String Unit × Effects :=
  let detection := buildDetection now employeeID req
  match c.createDetection detection with
  | .error e => (.error ("failed to create detection: " ++ e), emptyEffects)
  | .ok _ => (.ok (), { emptyEffects with detections := [detection] })

/-- The `models.Attendance` value `recordAttendance` builds
(`CheckInTime` and `CreatedDate` both from `time.Now()`). -/
def buildAttendance (now : GoTime) (employee : Employee) (scannerMac : String) :
    Attendance :=
  { employeeID := employee.id, checkInTime := now, scannerMac := scannerMac,
    status := calculateStatus now employee.workStartTime, createdDate := now }

/-- `recordAttendance` from `internal/services`: create the attendance
row (wrapping a failure as `failed to create attendance record: %w`)
and, on success, send the check-in notification. -/
def recordAttendance (c : Collaborators) (now : GoTime) (employee : Employee)
    (scannerMac : String) : Except String Unit × Effects :=
  let attendance := buildAttendance now employee scannerMac
  match c.createAttendance attendance with
  | .error e => (.error ("failed to create attendance record: " ++ e), emptyEffects)
  | .ok _ =>
    let notif := sendCheckInNotification employee now scannerMac attendance.status
    (.ok (), { notif with attendances := [attendance] })

/-- RSSI threshold of the proximity gate (`const rssiThreshold = -70`). -/
def rssiThreshold : Int := -70

/-- The in-place mutation `req.IsTargetDevice = true; req.DeviceName =
employee.Name` that `ProcessDetection` performs on a resolved request. -/
def markTarget (req : DetectionRequest) (employee : Employee) : DetectionRequest :=
  { req with isTargetDevice := true, deviceName := employee.name }

/-- `ProcessDetection` from `internal/services`.  Result: the Go error
return, the request struct as left after the call (Go passes `*req` and
mutates it), and the accumulated side effects. -/
def ProcessDetection (c : Collaborators) (now : GoTime) (req : DetectionRequest) :
    Except String Unit × DetectionRequest × Effects :=
  match c.getByMacAddress req.macAddress with
  | .error _ =>
    -- Not a registered employee device - ignore silently
    (.ok (), req, emptyEffects)
  | .ok employee =>
    let req := markTarget req employee
    if req.rssi < rssiThreshold then
      (.ok (), req, emptyEffects)
    else
      match c.isCheckedInToday employee.id with
      | .error e =>
        (.error ("failed to check attendance status: " ++ e), req, emptyEffects)
      | .ok isCheckedIn =>
        if !isCheckedIn then
          match saveDetection c now employee.id req with
          | (.error e, eff) => (.error ("failed to save detection: " ++ e), req, eff)
          | (.ok _, effSave) =>
            match recordAttendance c now employee req.scannerMac with
            | (.error e, effRec) =>
              (.error ("failed to record attendance: " ++ e), req, effSave.append effRec)
            | (.ok _, effRec) => (.ok (), req, effSave.append effRec)
        else
          (.ok (), req, emptyEffects)

deriving instance DecidableEq for Except

/-! Concrete fixtures used by witnesses and counterexamples. -/

def emp0 : Employee :=
  { id := "emp1", telegramChatID := 7001, name := "Somchai",
    macAddress := "11:22:33:44:55:66", workStartTime := "08:00:00",
    isActive := true }

def t0 : GoTime :=
  ⟨86400 * 20500 + 8 * 3600⟩

/-- A sighting of `emp0`'s device with strong signal (RSSI −50). -/
def reqNear : DetectionRequest :=
  { scannerMac := "AA:BB:CC:DD:EE:FF", macAddress := "11:22:33:44:55:66",
    rssi := -50, deviceType := "iTag03", isITag03 := true,
    isTargetDevice := false, deviceName := "" }

/-- The same sighting with weak signal (RSSI −80, below the −70 gate). -/
def reqFar : DetectionRequest :=
  { reqNear with rssi := -80 }

/-- The same sighting exactly at the gate threshold (RSSI −70). -/
def reqEdge : DetectionRequest :=
  { reqNear with rssi := -70 }

/-- Collaborators: device resolves to `emp0`, not yet checked in, all
creations succeed. -/
def collabOK : Collaborators :=
  { getByMacAddress := fun _ => .ok emp0,
    isCheckedInToday := fun _ => .ok false,
    createDetection := fun _ => .ok (),
    createAttendance := fun _ => .ok () }

/-- Collaborators: the employee lookup fails with a transport-level
error (not the repository's "employee not found"). -/
def collabLookupDown : Collaborators :=
  { collabOK with getByMacAddress := fun _ => .error "connection refused" }

/-- Collaborators: the employee lookup misses (`employee not found`). -/
def collabNotFound : Collaborators :=
  { collabOK with getByMacAddress := fun _ => .error "employee not found" }

/-- Collaborators: `emp0` already has an attendance row today. -/
def collabCheckedIn : Collaborators :=
  { collabOK with isCheckedInToday := fun _ => .ok true }

/-- Collaborators: the attendance-status check itself fails. -/
def collabDedupDown : Collaborators :=
  { collabOK with isCheckedInToday := fun _ => .error "pocketbase timeout" }

/-- Collaborators: creating the detection record fails. -/
def collabDetectionDown : Collaborators :=
  { collabOK with createDetection := fun _ => .error "db down" }

example : (ProcessDetection collabOK t0 reqNear).1 = .ok () := by decide
example : (ProcessDetection collabOK t0 reqNear).2.2.detections =
    [buildDetection t0 "emp1" (markTarget reqNear emp0)] := by decide
example : (ProcessDetection collabOK t0 reqNear).2.2.attendances =
    [buildAttendance t0 emp0 "AA:BB:CC:DD:EE:FF"] := by decide
example : (ProcessDetection collabOK t0 reqNear).2.2.personalMessages.length = 1 := by decide
example : (ProcessDetection collabOK t0 reqFar).2.2 = emptyEffects := by decide
example : (ProcessDetection collabLookupDown t0 reqNear).1 = .ok () := by decide
example : (ProcessDetection collabCheckedIn t0 reqNear) =
    (.ok (), markTarget reqNear emp0, emptyEffects) := by decide
example : (ProcessDetection collabDedupDown t0 reqNear).1 =
    .error "failed to check attendance status: pocketbase timeout" := by decide
example : (ProcessDetection collabDetectionDown t0 reqNear) =
    (.error "failed to save detection: failed to create detection: db down",
      markTarget reqNear emp0, emptyEffects) := by decide
example : (ProcessDetection collabOK t0 reqEdge).2.2.attendances.length = 1 := by decide

/-! Helper lemmas. -/

theorem dayStart_add (d r : Int) (h0 : 0 ≤ r) (h1 : r < 86400) :
    GoTime.dayStart ⟨86400 * d + r⟩ = 86400 * d := by
  unfold GoTime.dayStart
  rw [Int.fdiv_eq_ediv _ (by norm_num)]
  show 86400 * ((86400 * d + r) / 86400) = 86400 * d
  omega

theorem calculateStatus_parsed (t : GoTime) (ws : String) (h m s : Nat)
    (hp : parseClock ws = some (h, m, s)) :
    calculateStatus t ws =
      if t.sec < (timeDateOn t h m s).sec + gracePeriod then "ontime" else "late" := by
  unfold calculateStatus
  rw [hp]
  simp only [GoTime.before, GoTime.addSec, decide_eq_true_eq]

theorem calculateLateStatus_parsed (t : GoTime) (ws : String) (h m s : Nat)
    (hp : parseClock ws = some (h, m, s)) :
    calculateLateStatus t ws =
      "เข้าสาย " ++ toString (Int.tdiv (t.sec - (timeDateOn t h m s).sec) 60) ++ " นาที" := by
  unfold calculateLateStatus
  rw [hp]
  rfl

@[simp] theorem GoTime.sec_mk (n : Int) : GoTime.sec ⟨n⟩ = n := rfl

theorem timeDateOn_0800 (d off : Int) (h0 : 0 ≤ off) (h1 : off < 86400) :
    (timeDateOn ⟨86400 * d + off⟩ 8 0 0).sec = 86400 * d + 28800 := by
  simp only [timeDateOn, dayStart_add d off h0 h1, GoTime.sec_mk]
  norm_num

/-- C3: with a parseable expected start time-of-day, the classification
is on-time exactly when the arrival instant is strictly before the
expected-start instant on the arrival's calendar date plus the 5-minute
grace period, and late otherwise; arrival exactly at expected start is
on-time, at expected start + grace − 1 s is on-time, and at expected
start + grace + 1 s is late. -/
theorem C3_timeliness_classification (ws : String) (h m s : Nat) (t : GoTime)
    (hp : parseClock ws = some (h, m, s)) :
    (calculateStatus t ws = "ontime" ↔ t.sec < (timeDateOn t h m s).sec + gracePeriod) ∧
    (calculateStatus t ws = "late" ↔ (timeDateOn t h m s).sec + gracePeriod ≤ t.sec) ∧
    (t.sec = (timeDateOn t h m s).sec → calculateStatus t ws = "ontime") ∧
    (t.sec = (timeDateOn t h m s).sec + gracePeriod - 1 → calculateStatus t ws = "ontime") ∧
    (t.sec = (timeDateOn t h m s).sec + gracePeriod + 1 → calculateStatus t ws = "late") := by
  rw [calculateStatus_parsed t ws h m s hp]
  simp only [gracePeriod]
  by_cases hlt : t.sec < (timeDateOn t h m s).sec + 5 * 60
  · rw [if_pos hlt]
    refine ⟨iff_of_true rfl hlt, ?_, fun _ => rfl, fun _ => rfl,
      fun he => absurd hlt (by omega)⟩
    constructor
    · intro hco; exact absurd hco (by decide)
    · intro hle; exact absurd hlt (not_lt.mpr hle)
  · rw [if_neg hlt]
    refine ⟨?_, iff_of_true rfl (not_lt.mp hlt), fun he => absurd hlt (by omega),
      fun he => absurd hlt (by omega), fun _ => rfl⟩
    constructor
    · intro hco; exact absurd hco (by decide)
    · intro hlt2; exact absurd hlt2 hlt

/-- Witness for C3 at expected start 08:00:00 and arrival exactly
08:00:00 on a concrete day. -/
theorem C3_timeliness_classification_witness :
    calculateStatus ⟨86400 * 20500 + 8 * 3600⟩ "08:00:00" = "ontime" :=
  (C3_timeliness_classification "08:00:00" 8 0 0 ⟨86400 * 20500 + 8 * 3600⟩
    (by decide)).2.2.1 (by decide)

/-- C7: a malformed expected start time never yields an error: the
classification defaults to on-time and the lateness text is the generic
"เข้าสาย" with no computed minute figure. -/
theorem C7_malformed_start_fails_open (t : GoTime) (ws : String)
    (hp : parseClock ws = none) :
    calculateStatus t ws = "ontime" ∧ calculateLateStatus t ws = "เข้าสาย" := by
  unfold calculateStatus calculateLateStatus
  rw [hp]
  exact ⟨rfl, rfl⟩

/-- Witness for C7 on the unparseable start time "invalid". -/
theorem C7_malformed_start_fails_open_witness :
    calculateStatus t0 "invalid" = "ontime" ∧ calculateLateStatus t0 "invalid" = "เข้าสาย" :=
  C7_malformed_start_fails_open t0 "invalid" (by decide)

/-- C8: for a parseable expected start the lateness text reports the
arrival instant minus the expected-start instant in whole minutes
truncated toward zero; with expected start 08:00:00, on any day d an
08:04:00 arrival is on-time, an 08:06:00 arrival is late by 6 minutes
and an 08:30:00 arrival is late by 30 minutes. -/
theorem C8_lateness_minutes (d : Int) :
    (∀ ws h m s t, parseClock ws = some (h, m, s) →
      calculateLateStatus t ws =
        "เข้าสาย " ++ toString (Int.tdiv (t.sec - (timeDateOn t h m s).sec) 60) ++ " นาที") ∧
    calculateStatus ⟨86400 * d + (8 * 3600 + 4 * 60)⟩ "08:00:00" = "ontime" ∧
    calculateStatus ⟨86400 * d + (8 * 3600 + 6 * 60)⟩ "08:00:00" = "late" ∧
    calculateLateStatus ⟨86400 * d + (8 * 3600 + 6 * 60)⟩ "08:00:00" = "เข้าสาย 6 นาที" ∧
    calculateStatus ⟨86400 * d + (8 * 3600 + 30 * 60)⟩ "08:00:00" = "late" ∧
    calculateLateStatus ⟨86400 * d + (8 * 3600 + 30 * 60)⟩ "08:00:00" = "เข้าสาย 30 นาที" := by
  have hp : parseClock "08:00:00" = some (8, 0, 0) := by decide
  refine ⟨fun ws h m s t hpp => calculateLateStatus_parsed t ws h m s hpp, ?_, ?_, ?_, ?_, ?_⟩
  · rw [calculateStatus_parsed _ _ 8 0 0 hp,
      timeDateOn_0800 d _ (by norm_num) (by norm_num)]
    simp only [GoTime.sec_mk, gracePeriod]
    rw [if_pos (by omega)]
  · rw [calculateStatus_parsed _ _ 8 0 0 hp,
      timeDateOn_0800 d _ (by norm_num) (by norm_num)]
    simp only [GoTime.sec_mk, gracePeriod]
    rw [if_neg (by omega)]
  · rw [calculateLateStatus_parsed _ _ 8 0 0 hp,
      timeDateOn_0800 d _ (by norm_num) (by norm_num)]
    simp only [GoTime.sec_mk]
    rw [show (86400 * d + (8 * 3600 + 6 * 60) - (86400 * d + 28800) : Int) = 360 by ring]
    rfl
  · rw [calculateStatus_parsed _ _ 8 0 0 hp,
      timeDateOn_0800 d _ (by norm_num) (by norm_num)]
    simp only [GoTime.sec_mk, gracePeriod]
    rw [if_neg (by omega)]
  · rw [calculateLateStatus_parsed _ _ 8 0 0 hp,
      timeDateOn_0800 d _ (by norm_num) (by norm_num)]
    simp only [GoTime.sec_mk]
    rw [show (86400 * d + (8 * 3600 + 30 * 60) - (86400 * d + 28800) : Int) = 1800 by ring]
    rfl

/-- Witness for C8 on a concrete day, discharging the parse hypothesis
of the general lateness-minutes conjunct at 08:10:00. -/
theorem C8_lateness_minutes_witness :
    calculateLateStatus ⟨86400 * 20500 + 8 * 3600 + 10 * 60⟩ "08:00:00" =
      "เข้าสาย " ++ toString (Int.tdiv
        ((⟨86400 * 20500 + 8 * 3600 + 10 * 60⟩ : GoTime).sec -
          (timeDateOn ⟨86400 * 20500 + 8 * 3600 + 10 * 60⟩ 8 0 0).sec) 60) ++ " นาที" :=
  (C8_lateness_minutes 20500).1 "08:00:00" 8 0 0 ⟨86400 * 20500 + 8 * 3600 + 10 * 60⟩
    (by decide)

/-- C2 counterexample: a lookup failure that is not the repository's
"employee not found" error is swallowed — `ProcessDetection` returns
success, not a distinguishable error. -/
theorem C2_counterexample :
    collabLookupDown.getByMacAddress reqNear.macAddress = .error "connection refused" ∧
    "connection refused" ≠ "employee not found" ∧
    (ProcessDetection collabLookupDown t0 reqNear).1 = .ok () :=
  ⟨rfl, by decide, rfl⟩

/-- C2 amended: every identity-resolution failure — "not found" and
collaborator-level errors alike — makes `ProcessDetection` return
success with no further action, no audit write and no mutation of the
request. -/
theorem C2_resolution_errors_swallowed (c : Collaborators) (now : GoTime)
    (req : DetectionRequest) (msg : String)
    (hres : c.getByMacAddress req.macAddress = .error msg) :
    ProcessDetection c now req = (.ok (), req, emptyEffects) := by
  unfold ProcessDetection
  rw [hres]

/-- Witness for the amended C2 on the concrete failing-lookup
collaborators. -/
theorem C2_resolution_errors_swallowed_witness :
    ProcessDetection collabLookupDown t0 reqNear = (.ok (), reqNear, emptyEffects) :=
  C2_resolution_errors_swallowed collabLookupDown t0 reqNear "connection refused" rfl

/-- C5: a qualifying sighting of an identity that has already arrived
today is a silent no-op: success, no new attendance row, no detection
record, no notification, for any collaborator behaviour elsewhere. -/
theorem C5_already_arrived_noop (c : Collaborators) (now : GoTime)
    (req : DetectionRequest) (e : Employee)
    (hres : c.getByMacAddress req.macAddress = .ok e)
    (hgate : rssiThreshold ≤ req.rssi)
    (hded : c.isCheckedInToday e.id = .ok true) :
    ProcessDetection c now req = (.ok (), markTarget req e, emptyEffects) := by
  simp only [ProcessDetection, hres]
  rw [if_neg (not_lt.mpr (show rssiThreshold ≤ (markTarget req e).rssi from hgate))]
  rw [hded]
  rfl

/-- Witness for C5 on the checked-in collaborators. -/
theorem C5_already_arrived_noop_witness :
    ProcessDetection collabCheckedIn t0 reqNear = (.ok (), markTarget reqNear emp0, emptyEffects) :=
  C5_already_arrived_noop collabCheckedIn t0 reqNear emp0 rfl (by decide) rfl

/-- C6: a failure of the dedup check itself is propagated as an error,
wrapped with the failing stage's context, and aborts the sighting with
no attendance row created (fail-closed). -/
theorem C6_dedup_failure_propagates (c : Collaborators) (now : GoTime)
    (req : DetectionRequest) (e : Employee) (msg : String)
    (hres : c.getByMacAddress req.macAddress = .ok e)
    (hgate : rssiThreshold ≤ req.rssi)
    (hded : c.isCheckedInToday e.id = .error msg) :
    ProcessDetection c now req =
      (.error ("failed to check attendance status: " ++ msg), markTarget req e, emptyEffects) := by
  simp only [ProcessDetection, hres]
  rw [if_neg (not_lt.mpr (show rssiThreshold ≤ (markTarget req e).rssi from hgate))]
  rw [hded]

/-- Witness for C6 on the failing-dedup collaborators. -/
theorem C6_dedup_failure_propagates_witness :
    ProcessDetection collabDedupDown t0 reqNear =
      (.error "failed to check attendance status: pocketbase timeout",
        markTarget reqNear emp0, emptyEffects) :=
  C6_dedup_failure_propagates collabDedupDown t0 reqNear emp0 "pocketbase timeout"
    rfl (by decide) rfl

/-- C1 counterexample: a sighting that resolves to a known identity but
fails the signal-strength gate produces no detection record at all,
although the claim requires exactly one. -/
theorem C1_counterexample :
    collabOK.getByMacAddress reqFar.macAddress = .ok emp0 ∧
    (ProcessDetection collabOK t0 reqFar).2.2.detections = [] :=
  ⟨rfl, rfl⟩

/-- C1 amended: a detection record is created only on the full arrival
path — resolution succeeded, the gate passed and the identity had not
yet arrived today; when additionally the repository write succeeds,
exactly that one record is created, and a gate failure, an
already-arrived outcome, or a failed write each leave the detection
list empty. -/
theorem C1_detection_record_requires_full_path (c : Collaborators) (now : GoTime)
    (req : DetectionRequest) (e : Employee)
    (hres : c.getByMacAddress req.macAddress = .ok e) :
    (req.rssi < rssiThreshold → (ProcessDetection c now req).2.2.detections = []) ∧
    (c.isCheckedInToday e.id = .ok true → (ProcessDetection c now req).2.2.detections = []) ∧
    (∀ msg, rssiThreshold ≤ req.rssi → c.isCheckedInToday e.id = .ok false →
      c.createDetection (buildDetection now e.id (markTarget req e)) = .error msg →
      (ProcessDetection c now req).2.2.detections = []) ∧
    (rssiThreshold ≤ req.rssi → c.isCheckedInToday e.id = .ok false →
      c.createDetection (buildDetection now e.id (markTarget req e)) = .ok () →
      (ProcessDetection c now req).2.2.detections =
        [buildDetection now e.id (markTarget req e)]) := by
  refine ⟨?_, ?_, ?_, ?_⟩
  · intro hlt
    have hlt' : (markTarget req e).rssi < rssiThreshold := hlt
    simp [ProcessDetection, hres, hlt', emptyEffects]
  · intro hded
    by_cases hr : (markTarget req e).rssi < rssiThreshold
    · simp [ProcessDetection, hres, hr, emptyEffects]
    · simp [ProcessDetection, hres, hr, hded, emptyEffects]
  · intro msg hge hded hcd
    have hng : ¬(markTarget req e).rssi < rssiThreshold := not_lt.mpr hge
    simp [ProcessDetection, hres, hng, hded, saveDetection, hcd, emptyEffects]
  · intro hge hded hcd
    have hng : ¬(markTarget req e).rssi < rssiThreshold := not_lt.mpr hge
    rcases hca : c.createAttendance (buildAttendance now e (markTarget req e).scannerMac)
      with msg2 | u
    · simp [ProcessDetection, hres, hng, hded, saveDetection, hcd, recordAttendance, hca,
        Effects.append, emptyEffects]
    · simp [ProcessDetection, hres, hng, hded, saveDetection, hcd, recordAttendance, hca,
        sendCheckInNotification, Effects.append, emptyEffects]

/-- Witness for the amended C1 on the full-path collaborators. -/
theorem C1_detection_record_requires_full_path_witness :
    (ProcessDetection collabOK t0 reqNear).2.2.detections =
      [buildDetection t0 emp0.id (markTarget reqNear emp0)] :=
  (C1_detection_record_requires_full_path collabOK t0 reqNear emp0 rfl).2.2.2
    (by decide) rfl rfl

/-- C4 counterexample: when the detection-record write fails,
`ProcessDetection` aborts with an error and never attempts the
attendance write (the attendance collaborator would have succeeded, yet
no attendance row exists). -/
theorem C4_counterexample :
    (ProcessDetection collabDetectionDown t0 reqNear).1 =
      .error "failed to save detection: failed to create detection: db down" ∧
    (ProcessDetection collabDetectionDown t0 reqNear).2.2.attendances = [] :=
  ⟨rfl, rfl⟩

/-- C4 amended: a failure of the detection-record write is fatal to the
arrival branch: `ProcessDetection` returns the wrapped error and the
arrival-event creation is not attempted (no effects at all). -/
theorem C4_detection_write_failure_is_fatal (c : Collaborators) (now : GoTime)
    (req : DetectionRequest) (e : Employee) (msg : String)
    (hres : c.getByMacAddress req.macAddress = .ok e)
    (hge : rssiThreshold ≤ req.rssi)
    (hded : c.isCheckedInToday e.id = .ok false)
    (hcd : c.createDetection (buildDetection now e.id (markTarget req e)) = .error msg) :
    ProcessDetection c now req =
      (.error ("failed to save detection: " ++ ("failed to create detection: " ++ msg)),
        markTarget req e, emptyEffects) := by
  have hng : ¬(markTarget req e).rssi < rssiThreshold := not_lt.mpr hge
  simp [ProcessDetection, hres, hng, hded, saveDetection, hcd]

/-- Witness for the amended C4 on the failing-detection-write
collaborators. -/
theorem C4_detection_write_failure_is_fatal_witness :
    ProcessDetection collabDetectionDown t0 reqNear =
      (.error ("failed to save detection: " ++ ("failed to create detection: " ++ "db down")),
        markTarget reqNear emp0, emptyEffects) :=
  C4_detection_write_failure_is_fatal collabDetectionDown t0 reqNear emp0 "db down"
    rfl (by decide) rfl rfl

/-- C9: the proximity gate fails exactly for signal strength strictly
below the −70 threshold: a resolved sighting below the threshold ends
silently with success and no effects, while at the threshold itself the
pipeline proceeds and (for a new arrival with succeeding writes)
creates the arrival row. -/
theorem C9_gate_strictly_below_threshold (c : Collaborators) (now : GoTime)
    (req : DetectionRequest) (e : Employee)
    (hres : c.getByMacAddress req.macAddress = .ok e) :
    (req.rssi < rssiThreshold →
      ProcessDetection c now req = (.ok (), markTarget req e, emptyEffects)) ∧
    (rssiThreshold ≤ req.rssi → c.isCheckedInToday e.id = .ok false →
      c.createDetection (buildDetection now e.id (markTarget req e)) = .ok () →
      c.createAttendance (buildAttendance now e (markTarget req e).scannerMac) = .ok () →
      (ProcessDetection c now req).2.2.attendances =
        [buildAttendance now e (markTarget req e).scannerMac]) := by
  constructor
  · intro hlt
    have hlt' : (markTarget req e).rssi < rssiThreshold := hlt
    simp [ProcessDetection, hres, hlt', emptyEffects]
  · intro hge hded hcd hca
    have hng : ¬(markTarget req e).rssi < rssiThreshold := not_lt.mpr hge
    simp [ProcessDetection, hres, hng, hded, saveDetection, hcd, recordAttendance, hca,
      sendCheckInNotification, Effects.append, emptyEffects]

/-- Witness for C9: RSSI −80 is rejected silently; RSSI −70 (exactly
the threshold) passes the gate and produces the arrival row. -/
theorem C9_gate_strictly_below_threshold_witness :
    ProcessDetection collabOK t0 reqFar = (.ok (), markTarget reqFar emp0, emptyEffects) ∧
    (ProcessDetection collabOK t0 reqEdge).2.2.attendances =
      [buildAttendance t0 emp0 (markTarget reqEdge emp0).scannerMac] :=
  ⟨(C9_gate_strictly_below_threshold collabOK t0 reqFar emp0 rfl).1 (by decide),
   (C9_gate_strictly_below_threshold collabOK t0 reqEdge emp0 rfl).2 (by decide) rfl rfl rfl⟩

/-- C10 counterexample: `ProcessDetection` mutates a resolved request
in place — the target-device flag flips to true and the device name is
overwritten with the resolved employee's name. -/
theorem C10_counterexample :
    reqNear.isTargetDevice = false ∧
    (ProcessDetection collabOK t0 reqNear).2.1.isTargetDevice = true ∧
    reqNear.deviceName = "" ∧
    (ProcessDetection collabOK t0 reqNear).2.1.deviceName = "Somchai" :=
  ⟨rfl, rfl, rfl, rfl⟩

/-- C10 amended: the pipeline leaves every request field unchanged
except that, on successful resolution, it sets the target-device flag
to true and the device name to the resolved employee's display name; an
unresolved request is returned entirely unchanged. -/
theorem C10_request_mutation_exactly_target_fields (c : Collaborators) (now : GoTime)
    (req : DetectionRequest) :
    (ProcessDetection c now req).2.1 =
      (match c.getByMacAddress req.macAddress with
        | .ok e => markTarget req e
        | .error _ => req) ∧
    (ProcessDetection c now req).2.1.scannerMac = req.scannerMac ∧
    (ProcessDetection c now req).2.1.macAddress = req.macAddress ∧
    (ProcessDetection c now req).2.1.rssi = req.rssi ∧
    (ProcessDetection c now req).2.1.deviceType = req.deviceType ∧
    (ProcessDetection c now req).2.1.isITag03 = req.isITag03 := by
  have h : (ProcessDetection c now req).2.1 =
      (match c.getByMacAddress req.macAddress with
        | .ok e => markTarget req e
        | .error _ => req) := by
    rcases hr : c.getByMacAddress req.macAddress with msg | e
    · simp [ProcessDetection, hr]
    · simp only [ProcessDetection, hr]
      repeat' split
      all_goals rfl
  refine ⟨h, ?_, ?_, ?_, ?_, ?_⟩ <;>
    (rw [h]; rcases c.getByMacAddress req.macAddress with msg | e <;> simp [markTarget])

/-- Witness instantiating the amended C10 on concrete collaborators. -/
theorem C10_request_mutation_exactly_target_fields_witness :
    (ProcessDetection collabOK t0 reqNear).2.1 = markTarget reqNear emp0 :=
  ((C10_request_mutation_exactly_target_fields collabOK t0 reqNear).1).trans rfl

example : parseClock "08:00:00" = some (8, 0, 0) := by decide
example : parseClock "invalid" = none := by decide
example : parseClock "23:59:59" = some (23, 59, 59) := by decide
example : parseClock "24:00:00" = none := by decide
example : calculateStatus ⟨86400 * 100 + 8 * 3600 + 4 * 60⟩ "08:00:00" = "ontime" := by decide
example : calculateStatus ⟨86400 * 100 + 8 * 3600 + 6 * 60⟩ "08:00:00" = "late" := by decide
example : calculateLateStatus ⟨86400 * 100 + 8 * 3600 + 6 * 60⟩ "08:00:00" = "เข้าสาย 6 นาที" := by decide

end MedPulse
